import Mathlib

/-!
Verification development for the `aim` session-registry core.

The per-user session lifecycle manager lives in
`providers/browser/browser_provider.py`, `providers/codebase/codebase_provider.py`
and the inactivity reaper in `api/api_server.py`.  Registries are immutable
pydantic models holding Python dicts from user ids to resource records; every
operation returns a new snapshot (`Success`) or a typed error (`Failure`).
We embed the dicts as association lists with Python dict-update semantics
(`{**old, k: v}` replaces in place or appends, dict comprehensions filter),
timestamps as integers, and the external effects (context creation, context
close, browser close, the health-check HTTP GET) as explicit outcome
parameters of type `Except`.
-/

/-- A Python `dict[str, V]`, embedded as an association list in insertion
order with unique keys maintained by the operations below. -/
abbrev Dict (V : Type) : Type := List (String × V)

namespace Dict

/-- `d.get(k)` on a Python dict: the value at the first matching key. -/
def find? {V : Type} : Dict V → String → Option V
  | [], _ => none
  | (k0, v0) :: rest, k => if k0 = k then some v0 else find? rest k

/-- `k in d` on a Python dict. -/
def hasKey {V : Type} (m : Dict V) (k : String) : Bool :=
  (find? m k).isSome

/-- `{**m, k: v}`: replace the value at `k` in place if present, else append. -/
def insert {V : Type} : Dict V → String → V → Dict V
  | [], k, v => [(k, v)]
  | (k0, v0) :: rest, k, v =>
    if k0 = k then (k, v) :: rest else (k0, v0) :: insert rest k v

/-- `{k0: v0 for k0, v0 in m.items() if k0 != k}`. -/
def erase {V : Type} (m : Dict V) (k : String) : Dict V :=
  List.filter (fun e => decide ¬(e.1 = k)) m

/-- `list(m.keys())`. -/
def keysOf {V : Type} (m : Dict V) : List String :=
  List.map Prod.fst m

/-- `[k for k, v in m.items() if p v]`: keys whose value satisfies `p`. -/
def filterKeys {V : Type} (m : Dict V) (p : V → Bool) : List String :=
  keysOf (List.filter (fun e => p e.2) m)

@[simp]
theorem find?_nil {V : Type} (k : String) : find? ([] : Dict V) k = none := rfl

theorem find?_insert {V : Type} (m : Dict V) (k k' : String) (v : V) :
    find? (insert m k v) k' = if k = k' then some v else find? m k' := by
  induction m with
  | nil => simp [insert, find?]
  | cons e rest ih =>
    obtain ⟨k0, v0⟩ := e
    by_cases h0 : k0 = k
    · subst h0
      by_cases h1 : k0 = k'
      · subst h1; simp [insert, find?]
      · simp [insert, find?, h1]
    · by_cases h1 : k0 = k'
      · subst h1
        have hk : ¬ k = k0 := fun h => h0 h.symm
        simp [insert, find?, h0, hk]
      · simp [insert, find?, h0, h1, ih]

theorem find?_erase {V : Type} (m : Dict V) (k k' : String) :
    find? (erase m k) k' = if k = k' then none else find? m k' := by
  induction m with
  | nil => simp [erase, find?]
  | cons e rest ih =>
    obtain ⟨k0, v0⟩ := e
    by_cases h0 : k0 = k
    · subst h0
      by_cases h1 : k0 = k'
      · subst h1; simp [erase, find?] at ih ⊢; exact ih
      · have hk : ¬ k0 = k' := h1
        simp [erase, find?, hk] at ih ⊢
        exact ih
    · by_cases h1 : k0 = k'
      · subst h1
        have hk : ¬ k = k0 := fun h => h0 h.symm
        simp [erase, find?, h0, hk]
      · simp [erase, find?, h0, h1] at ih ⊢
        exact ih

theorem hasKey_insert {V : Type} (m : Dict V) (k k' : String) (v : V) :
    hasKey (insert m k v) k' = (decide (k = k') || hasKey m k') := by
  by_cases h : k = k' <;> simp [hasKey, find?_insert, h]

theorem hasKey_erase {V : Type} (m : Dict V) (k k' : String) :
    hasKey (erase m k) k' = (!decide (k = k') && hasKey m k') := by
  by_cases h : k = k' <;> simp [hasKey, find?_erase, h]

theorem find?_eq_none_of_not_mem_keys {V : Type} (m : Dict V) (k : String)
    (h : ¬ k ∈ keysOf m) : find? m k = none := by
  induction m with
  | nil => rfl
  | cons e rest ih =>
    have h2 : ¬ k ∈ (e.1 :: keysOf rest) := by
      simpa only [keysOf, List.map_cons] using h
    have hne : ¬ e.1 = k := fun hh => h2 (by rw [hh]; exact List.mem_cons_self _ _)
    have hrest : ¬ k ∈ keysOf rest := fun hh => h2 (List.mem_cons_of_mem _ hh)
    simp [find?, hne, ih hrest]

theorem mem_filterKeys {V : Type} (m : Dict V) (p : V → Bool) (u : String)
    (hn : (keysOf m).Nodup) :
    u ∈ filterKeys m p ↔ ∃ v, find? m u = some v ∧ p v = true := by
  induction m with
  | nil => simp [filterKeys, keysOf]
  | cons e rest ih =>
    have hn2 : (e.1 :: keysOf rest).Nodup := by
      simpa only [keysOf, List.map_cons] using hn
    have hne : ¬ e.1 ∈ keysOf rest := (List.nodup_cons.mp hn2).1
    have hn' : (keysOf rest).Nodup := (List.nodup_cons.mp hn2).2
    by_cases hpe : p e.2 = true
    · have hfk : filterKeys (e :: rest) p = e.1 :: filterKeys rest p := by
        simp [filterKeys, keysOf, List.filter_cons, hpe]
      rw [hfk]
      by_cases hu : e.1 = u
      · subst hu
        constructor
        · intro _
          exact ⟨e.2, by simp [find?], hpe⟩
        · intro _
          exact List.mem_cons_self _ _
      · have hfind : find? (e :: rest) u = find? rest u := by simp [find?, hu]
        rw [hfind]
        constructor
        · intro hmem
          rcases List.mem_cons.mp hmem with h1 | h1
          · exact absurd h1.symm hu
          · exact (ih hn').mp h1
        · intro hex
          exact List.mem_cons_of_mem _ ((ih hn').mpr hex)
    · have hfk : filterKeys (e :: rest) p = filterKeys rest p := by
        simp [filterKeys, keysOf, List.filter_cons, hpe]
      rw [hfk]
      by_cases hu : e.1 = u
      · subst hu
        have hfind : find? rest e.1 = none := find?_eq_none_of_not_mem_keys rest e.1 hne
        constructor
        · intro hmem
          rcases (ih hn').mp hmem with ⟨v, hv, _⟩
          rw [hfind] at hv
          simp at hv
        · rintro ⟨v, hv, hpv⟩
          have hv2 : v = e.2 := by simpa [find?] using hv.symm
          subst hv2
          exact absurd hpv hpe
      · have hfind : find? (e :: rest) u = find? rest u := by simp [find?, hu]
        rw [hfind]
        exact ih hn'

end Dict

/-! ## Browser provider: data model (`providers/browser/browser_models.py`) -/

/-- Opaque `BrowserConfig` from the browser-automation library. -/
abbrev BrowserConfig : Type := Nat

/-- Opaque shared `Browser` handle; `Browser(browser_config)` wraps the config. -/
abbrev Browser : Type := Nat

/-- Opaque per-context `BrowserContextConfig`. -/
abbrev BrowserContextConfig : Type := Nat

/-- Opaque `BrowserContext` handle returned by `browser.new_context`. -/
abbrev BrowserContext : Type := Nat

/-- `UserMetadata`: frozen pydantic model, structural equality. -/
structure UserMetadata where
  website_url : String
  last_active_timestamp : Int
deriving DecidableEq

/-- `BrowserState`: the browser-side session registry snapshot. -/
structure BrowserState where
  browser_instance : Browser
  user_contexts : Dict BrowserContext
  user_metadata : Dict UserMetadata
deriving DecidableEq

/-- `BrowserOperation` enum: every declared browser error kind. -/
inductive BrowserOperation where
  | CREATE_BROWSER
  | CREATE_BROWSER_CONTEXT
  | CLOSE_BROWSER_CONTEXT
  | ADD_USER_CONTEXT_EXISTS
  | GET_USER_CONTEXT_NOT_FOUND
  | GET_USER_METADATA_NOT_FOUND
  | REMOVE_USER_CONTEXT_NOT_FOUND
  | UPDATE_USER_METADATA_NOT_FOUND
  | CLOSE_MAIN_BROWSER
  | SHUTDOWN_BROWSER
  | ADD_USER_CONTEXT_FAILED
  | REMOVE_USER_CONTEXT_FAILED
deriving DecidableEq

/-- `BrowserError`: frozen pydantic error value. -/
structure BrowserError where
  message : String
  operation_name : BrowserOperation
  user_id : Option String
  details : Option String
deriving DecidableEq

/-! ## Browser provider: operations (`providers/browser/browser_provider.py`)

The external awaits (`_create_browser_context`, `_close_browser_context`,
`_close_browser`) are modelled by passing their outcome as an `Except String _`
argument: `Except.ok` is a completed await, `Except.error` the stringified
exception caught by `future_safe`. -/

/-- `_make_browser_error` factory. -/
def _make_browser_error (message : String) (operation_name : BrowserOperation)
    (user_id : Option String) (details : Option String) : BrowserError :=
  { message := message, operation_name := operation_name,
    user_id := user_id, details := details }

/-- `create_browser_state`: wraps the config in a fresh `Browser`, empty maps. -/
def create_browser_state (browser_config : BrowserConfig) : BrowserState :=
  { browser_instance := browser_config, user_contexts := [], user_metadata := [] }

/-- `add_user_context_and_metadata`.  `now` is `datetime.utcnow()` at entry;
`createRes` is the outcome of the `_create_browser_context` await (only
consulted on the no-existing-context path, as in the source). -/
def add_user_context_and_metadata (current_state : BrowserState) (user_id : String)
    (_context_config : BrowserContextConfig) (user_meta : UserMetadata) (now : Int)
    (createRes : Except String BrowserContext) : Except BrowserError BrowserState :=
  if Dict.hasKey current_state.user_contexts user_id then
    let updated_user_meta_for_existing_user : UserMetadata :=
      { website_url := user_meta.website_url, last_active_timestamp := now }
    match Dict.find? current_state.user_metadata user_id with
    | some existing_meta =>
      if existing_meta = updated_user_meta_for_existing_user then
        Except.ok current_state
      else
        Except.ok { current_state with
          user_metadata := Dict.insert current_state.user_metadata user_id
            updated_user_meta_for_existing_user }
    | none =>
      Except.ok { current_state with
        user_metadata := Dict.insert current_state.user_metadata user_id
          updated_user_meta_for_existing_user }
  else
    let user_meta_with_current_timestamp : UserMetadata :=
      { user_meta with last_active_timestamp := now }
    match createRes with
    | Except.ok new_context =>
      Except.ok { current_state with
        user_contexts := Dict.insert current_state.user_contexts user_id new_context,
        user_metadata := Dict.insert current_state.user_metadata user_id
          user_meta_with_current_timestamp }
    | Except.error err =>
      Except.error (_make_browser_error
        ("Failed to add user context for " ++ user_id ++ ".")
        BrowserOperation.ADD_USER_CONTEXT_FAILED (some user_id) (some err))

/-- `get_user_context`: pure lookup. -/
def get_user_context (state : BrowserState) (user_id : String) :
    Except BrowserError BrowserContext :=
  match Dict.find? state.user_contexts user_id with
  | some ctx => Except.ok ctx
  | none =>
    Except.error (_make_browser_error
      ("User context for " ++ user_id ++ " not found.")
      BrowserOperation.GET_USER_CONTEXT_NOT_FOUND (some user_id) none)

/-- `get_user_metadata`: pure lookup. -/
def get_user_metadata (state : BrowserState) (user_id : String) :
    Except BrowserError UserMetadata :=
  match Dict.find? state.user_metadata user_id with
  | some md => Except.ok md
  | none =>
    Except.error (_make_browser_error
      ("User metadata for " ++ user_id ++ " not found.")
      BrowserOperation.GET_USER_METADATA_NOT_FOUND (some user_id) none)

/-- `remove_user_context`.  `closeRes` is the outcome of the
`_close_browser_context` await. -/
def remove_user_context (current_state : BrowserState) (user_id : String)
    (closeRes : Except String Unit) : Except BrowserError BrowserState :=
  match get_user_context current_state user_id with
  | Except.error e =>
    Except.error { e with operation_name := BrowserOperation.REMOVE_USER_CONTEXT_NOT_FOUND }
  | Except.ok _context_to_remove =>
    match closeRes with
    | Except.ok _ =>
      Except.ok { current_state with
        user_contexts := Dict.erase current_state.user_contexts user_id,
        user_metadata := Dict.erase current_state.user_metadata user_id }
    | Except.error err =>
      Except.error (_make_browser_error
        ("Failed to remove user context for " ++ user_id ++ ".")
        BrowserOperation.REMOVE_USER_CONTEXT_FAILED (some user_id) (some err))

/-- `update_user_metadata`: synchronous state update. -/
def update_user_metadata (current_state : BrowserState) (user_id : String)
    (new_meta : UserMetadata) : Except BrowserError BrowserState :=
  if Dict.hasKey current_state.user_metadata user_id then
    Except.ok { current_state with
      user_metadata := Dict.insert current_state.user_metadata user_id new_meta }
  else
    Except.error (_make_browser_error
      ("User " ++ user_id ++ " not found for metadata update.")
      BrowserOperation.UPDATE_USER_METADATA_NOT_FOUND (some user_id) none)

/-- `shutdown_browser`.  `closeRes` is the outcome of the `_close_browser`
await; on success the source returns the fixed status string. -/
def shutdown_browser (_state : BrowserState) (closeRes : Except String Unit) :
    Except BrowserError String :=
  match closeRes with
  | Except.ok _ => Except.ok "Browser closed successfully"
  | Except.error err =>
    Except.error (_make_browser_error "Failed to close browser."
      BrowserOperation.SHUTDOWN_BROWSER none (some err))

/-! ## Codebase provider: data model (`providers/codebase/codebase_models.py`) -/

/-- `Optional[Dict[str, Any]]` project metadata, compared structurally. -/
abbrev ProjectMetadata : Type := Option (List (String × String))

/-- `UserProject`: frozen pydantic model. -/
structure UserProject where
  project_address : String
  metadata : ProjectMetadata
  last_active_timestamp : Int
deriving DecidableEq

/-- `CodebaseState`: the codebase-side session registry snapshot. -/
structure CodebaseState where
  user_projects : Dict UserProject
deriving DecidableEq

/-- `CodebaseOperation` enum. -/
inductive CodebaseOperation where
  | ADD_USER_PROJECT
  | ADD_USER_PROJECT_HEALTH_CHECK_FAILED
  | ADD_USER_PROJECT_HTTP_ERROR
  | REMOVE_USER_PROJECT
  | REMOVE_USER_PROJECT_NOT_FOUND
  | GET_USER_PROJECT
  | GET_USER_PROJECT_NOT_FOUND
  | UPDATE_USER_PROJECT_METADATA
  | UPDATE_USER_PROJECT_METADATA_NOT_FOUND
deriving DecidableEq

/-- `CodebaseError`: frozen pydantic error value. -/
structure CodebaseError where
  message : String
  operation_name : CodebaseOperation
  user_id : Option String
  project_address : Option String
  details : Option String
deriving DecidableEq

/-! ## Codebase provider: operations (`providers/codebase/codebase_provider.py`) -/

/-- `_make_codebase_error` factory. -/
def _make_codebase_error (message : String) (operation_name : CodebaseOperation)
    (user_id : Option String) (project_address : Option String)
    (details : Option String) : CodebaseError :=
  { message := message, operation_name := operation_name, user_id := user_id,
    project_address := project_address, details := details }

/-- `_check_project_health`: GET `{project_address}/galatea/health` with a 5s
timeout, `raise_for_status()` (raises for any non-2xx status), then report
`status_code == 200`.  `httpRes` is the HTTP outcome: `Except.ok status` for a
response, `Except.error` for a transport fault; a raised status error becomes
the `Except.error` of the `future_safe` wrapper. -/
def _check_project_health (httpRes : Except String Nat) : Except String Bool :=
  match httpRes with
  | Except.error err => Except.error err
  | Except.ok status =>
    if 200 ≤ status ∧ status < 300 then Except.ok (decide (status = 200))
    else Except.error ("HTTPStatusError for status " ++ toString status)

/-- `create_codebase_state`: empty map. -/
def create_codebase_state : CodebaseState :=
  { user_projects := [] }

/-- `add_user_project`.  `now` is `datetime.utcnow()` at entry; `healthRes` is
the outcome of the `_check_project_health` await (`Except.ok b` = readiness
check answered `b`, `Except.error` = the check itself raised), consulted only
on the fall-through path, as in the source. -/
def add_user_project (current_state : CodebaseState) (user_id : String)
    (project_address : String) (metadata : ProjectMetadata) (now : Int)
    (healthRes : Except String Bool) : Except CodebaseError CodebaseState :=
  let project_to_add_or_update : UserProject :=
    { project_address := project_address, metadata := metadata,
      last_active_timestamp := now }
  let healthCheckedPath : Except CodebaseError CodebaseState :=
    match healthRes with
    | Except.ok true =>
      Except.ok { current_state with
        user_projects := Dict.insert current_state.user_projects user_id
          project_to_add_or_update }
    | Except.ok false =>
      Except.error (_make_codebase_error
        ("Health check failed for project: " ++ project_address)
        CodebaseOperation.ADD_USER_PROJECT_HEALTH_CHECK_FAILED
        (some user_id) (some project_address)
        (some "Health endpoint did not return 200 or was unreachable."))
    | Except.error error_obj =>
      Except.error (_make_codebase_error
        ("HTTP error during health check for project: " ++ project_address)
        CodebaseOperation.ADD_USER_PROJECT_HTTP_ERROR
        (some user_id) (some project_address) (some error_obj))
  match Dict.find? current_state.user_projects user_id with
  | some existing_project =>
    if existing_project.project_address = project_address ∧
        existing_project.metadata = metadata then
      if existing_project.last_active_timestamp = now then
        Except.ok current_state
      else
        Except.ok { current_state with
          user_projects := Dict.insert current_state.user_projects user_id
            { existing_project with last_active_timestamp := now } }
    else healthCheckedPath
  | none => healthCheckedPath

/-- `get_user_project`: pure lookup. -/
def get_user_project (state : CodebaseState) (user_id : String) :
    Except CodebaseError UserProject :=
  match Dict.find? state.user_projects user_id with
  | some project => Except.ok project
  | none =>
    Except.error (_make_codebase_error
      ("User project for user_id " ++ user_id ++ " not found.")
      CodebaseOperation.GET_USER_PROJECT_NOT_FOUND (some user_id) none none)

/-- `remove_user_project`: synchronous removal. -/
def remove_user_project (current_state : CodebaseState) (user_id : String) :
    Except CodebaseError CodebaseState :=
  if Dict.hasKey current_state.user_projects user_id then
    Except.ok { current_state with
      user_projects := Dict.erase current_state.user_projects user_id }
  else
    Except.error (_make_codebase_error
      ("User project for user_id " ++ user_id ++ " not found for removal.")
      CodebaseOperation.REMOVE_USER_PROJECT_NOT_FOUND (some user_id) none none)

/-- `update_user_project_metadata`: replace the metadata field only. -/
def update_user_project_metadata (current_state : CodebaseState) (user_id : String)
    (new_metadata : ProjectMetadata) : Except CodebaseError CodebaseState :=
  match Dict.find? current_state.user_projects user_id with
  | some project_to_update =>
    Except.ok { current_state with
      user_projects := Dict.insert current_state.user_projects user_id
        { project_to_update with metadata := new_metadata } }
  | none =>
    Except.error (_make_codebase_error
      ("User project for user_id " ++ user_id ++ " not found for metadata update.")
      CodebaseOperation.UPDATE_USER_PROJECT_METADATA_NOT_FOUND
      (some user_id) none none)

/-! ## Registry transition system

The process keeps one mutable reference per registry; a transition's
`Except.ok` snapshot is swapped in, an `Except.error` leaves the reference on
the old snapshot (`api/api_server.py` handlers and helpers). -/

/-- One browser-registry transition together with the outcomes of its
external awaits. -/
inductive BrowserOp where
  | addCtx (user_id : String) (cfg : BrowserContextConfig) (meta : UserMetadata)
      (now : Int) (createRes : Except String BrowserContext)
  | removeCtx (user_id : String) (closeRes : Except String Unit)
  | updateMeta (user_id : String) (meta : UserMetadata)
  | shutdownBrowser (closeRes : Except String Unit)

/-- Apply one browser transition, keeping the new snapshot on success and the
old one on failure; `shutdown_browser` returns no snapshot, so the reference
is untouched. -/
def browserStep (s : BrowserState) : BrowserOp → BrowserState
  | BrowserOp.addCtx uid cfg meta now cres =>
    match add_user_context_and_metadata s uid cfg meta now cres with
    | Except.ok s2 => s2
    | Except.error _ => s
  | BrowserOp.removeCtx uid clres =>
    match remove_user_context s uid clres with
    | Except.ok s2 => s2
    | Except.error _ => s
  | BrowserOp.updateMeta uid meta =>
    match update_user_metadata s uid meta with
    | Except.ok s2 => s2
    | Except.error _ => s
  | BrowserOp.shutdownBrowser _ => s

/-- Run a sequence of browser transitions from a snapshot. -/
def browserRun (s : BrowserState) (ops : List BrowserOp) : BrowserState :=
  List.foldl browserStep s ops

/-- One codebase-registry transition. -/
inductive CodebaseOp where
  | addProj (user_id project_address : String) (metadata : ProjectMetadata)
      (now : Int) (healthRes : Except String Bool)
  | removeProj (user_id : String)
  | updateProjMeta (user_id : String) (metadata : ProjectMetadata)

/-- Apply one codebase transition, keeping the new snapshot on success and the
old one on failure. -/
def codebaseStep (s : CodebaseState) : CodebaseOp → CodebaseState
  | CodebaseOp.addProj uid addr meta now hres =>
    match add_user_project s uid addr meta now hres with
    | Except.ok s2 => s2
    | Except.error _ => s
  | CodebaseOp.removeProj uid =>
    match remove_user_project s uid with
    | Except.ok s2 => s2
    | Except.error _ => s
  | CodebaseOp.updateProjMeta uid meta =>
    match update_user_project_metadata s uid meta with
    | Except.ok s2 => s2
    | Except.error _ => s

/-! ## Inactivity reaper (`api/api_server.py`) -/

/-- `INACTIVITY_THRESHOLD_SECONDS = 3600`. -/
def INACTIVITY_THRESHOLD_SECONDS : Int := 3600

/-- `RECYCLING_INTERVAL_SECONDS = 300`. -/
def RECYCLING_INTERVAL_SECONDS : Int := 300

/-- The browser users selected in one cycle: those whose metadata timestamp is
strictly before `threshold_time = now - INACTIVITY_THRESHOLD_SECONDS`. -/
def inactiveBrowserUsers (s : BrowserState) (threshold_time : Int) : List String :=
  Dict.filterKeys s.user_metadata
    (fun md => decide (md.last_active_timestamp < threshold_time))

/-- The codebase users selected in one cycle. -/
def inactiveCodebaseUsers (s : CodebaseState) (threshold_time : Int) : List String :=
  Dict.filterKeys s.user_projects
    (fun p => decide (p.last_active_timestamp < threshold_time))

/-- `_handle_browser_user_removal`: attempt the removal, publish the new
snapshot on success, log and keep the old one on failure. -/
def _handle_browser_user_removal (s : BrowserState) (user_id : String)
    (closeRes : Except String Unit) : BrowserState :=
  match remove_user_context s user_id closeRes with
  | Except.ok s2 => s2
  | Except.error _ => s

/-- `_handle_codebase_user_removal`: same, synchronous. -/
def _handle_codebase_user_removal (s : CodebaseState) (user_id : String) :
    CodebaseState :=
  match remove_user_project s user_id with
  | Except.ok s2 => s2
  | Except.error _ => s

/-- One browser half of a `recycle_inactive_users` cycle: snapshot the
inactive list, then remove sequentially against the current state.
`closeRes` gives each close await's outcome. -/
def browserReaperCycle (s : BrowserState) (now threshold : Int)
    (closeRes : String → Except String Unit) : BrowserState :=
  List.foldl (fun st u => _handle_browser_user_removal st u (closeRes u)) s
    (inactiveBrowserUsers s (now - threshold))

/-- One codebase half of a `recycle_inactive_users` cycle. -/
def codebaseReaperCycle (s : CodebaseState) (now threshold : Int) : CodebaseState :=
  List.foldl (fun st u => _handle_codebase_user_removal st u) s
    (inactiveCodebaseUsers s (now - threshold))

/-! ## Theorems -/

/-- C2: if `user_id` has a context and the external close fails, `remove`
returns a `REMOVE_USER_CONTEXT_FAILED` error, the published snapshot is the
unchanged input, and `get_context` on that snapshot still yields the original
handle. -/
theorem remove_close_failure_leaves_registry (s : BrowserState) (user_id : String)
    (ctx : BrowserContext) (err : String)
    (h : Dict.find? s.user_contexts user_id = some ctx) :
    (∃ e, remove_user_context s user_id (Except.error err) = Except.error e ∧
        e.operation_name = BrowserOperation.REMOVE_USER_CONTEXT_FAILED) ∧
    browserStep s (BrowserOp.removeCtx user_id (Except.error err)) = s ∧
    get_user_context s user_id = Except.ok ctx := by
  have hget : get_user_context s user_id = Except.ok ctx := by
    simp [get_user_context, h]
  refine ⟨⟨_make_browser_error
      ("Failed to remove user context for " ++ user_id ++ ".")
      BrowserOperation.REMOVE_USER_CONTEXT_FAILED (some user_id) (some err),
      ?_, rfl⟩, ?_, hget⟩
  · simp [remove_user_context, hget]
  · simp [browserStep, remove_user_context, hget]

/-- Witness for C2 on a concrete one-user registry. -/
theorem remove_close_failure_leaves_registry_witness :
    (∃ e, remove_user_context ⟨0, [("u1", 7)], [("u1", ⟨"https://a.test", 5⟩)]⟩ "u1"
        (Except.error "boom") = Except.error e ∧
        e.operation_name = BrowserOperation.REMOVE_USER_CONTEXT_FAILED) ∧
    browserStep ⟨0, [("u1", 7)], [("u1", ⟨"https://a.test", 5⟩)]⟩
        (BrowserOp.removeCtx "u1" (Except.error "boom")) =
      ⟨0, [("u1", 7)], [("u1", ⟨"https://a.test", 5⟩)]⟩ ∧
    get_user_context ⟨0, [("u1", 7)], [("u1", ⟨"https://a.test", 5⟩)]⟩ "u1" =
      Except.ok 7 :=
  remove_close_failure_leaves_registry _ "u1" 7 "boom" rfl

/-- C5: for an already-registered user, `add_or_refresh` succeeds for every
possible create-context outcome (creation is never invoked), replaces only
`metadata[user_id]` with the incoming url and the fresh timestamp, preserves
the context map and all other users' metadata, and short-circuits to the
unchanged input when the stored metadata already equals the fully-current
record. -/
theorem add_existing_user_refreshes_metadata_only (s : BrowserState)
    (user_id : String) (cfg : BrowserContextConfig) (meta : UserMetadata)
    (now : Int) (ctx : BrowserContext)
    (h : Dict.find? s.user_contexts user_id = some ctx) :
    ∃ s2,
      (∀ createRes,
        add_user_context_and_metadata s user_id cfg meta now createRes = Except.ok s2) ∧
      s2.browser_instance = s.browser_instance ∧
      s2.user_contexts = s.user_contexts ∧
      (∀ u, ¬ u = user_id →
        Dict.find? s2.user_metadata u = Dict.find? s.user_metadata u) ∧
      Dict.find? s2.user_metadata user_id = some ⟨meta.website_url, now⟩ ∧
      (Dict.find? s.user_metadata user_id = some ⟨meta.website_url, now⟩ → s2 = s) := by
  have hk : Dict.hasKey s.user_contexts user_id = true := by simp [Dict.hasKey, h]
  cases hm : Dict.find? s.user_metadata user_id with
  | some em =>
    by_cases he : em = (⟨meta.website_url, now⟩ : UserMetadata)
    · refine ⟨s, ?_, rfl, rfl, fun u _ => rfl, ?_, fun _ => rfl⟩
      · intro createRes
        simp [add_user_context_and_metadata, hk, hm, he]
      · rw [hm, he]
    · refine ⟨⟨s.browser_instance, s.user_contexts,
          Dict.insert s.user_metadata user_id ⟨meta.website_url, now⟩⟩,
        ?_, rfl, rfl, ?_, ?_, ?_⟩
      · intro createRes
        simp [add_user_context_and_metadata, hk, hm, he]
      · intro u hu
        have hne : ¬ user_id = u := fun hh => hu hh.symm
        show Dict.find? (Dict.insert s.user_metadata user_id _) u = _
        rw [Dict.find?_insert, if_neg hne]
      · show Dict.find? (Dict.insert s.user_metadata user_id _) user_id = _
        rw [Dict.find?_insert, if_pos rfl]
      · intro hcur
        exact absurd (Option.some.inj hcur) he
  | none =>
    refine ⟨⟨s.browser_instance, s.user_contexts,
        Dict.insert s.user_metadata user_id ⟨meta.website_url, now⟩⟩,
      ?_, rfl, rfl, ?_, ?_, ?_⟩
    · intro createRes
      simp [add_user_context_and_metadata, hk, hm]
    · intro u hu
      have hne : ¬ user_id = u := fun hh => hu hh.symm
      show Dict.find? (Dict.insert s.user_metadata user_id _) u = _
      rw [Dict.find?_insert, if_neg hne]
    · show Dict.find? (Dict.insert s.user_metadata user_id _) user_id = _
      rw [Dict.find?_insert, if_pos rfl]
    · intro hcur
      exact Option.noConfusion hcur

/-- Witness for C5 on a concrete two-user registry. -/
theorem add_existing_user_refreshes_metadata_only_witness :
    ∃ s2,
      (∀ createRes,
        add_user_context_and_metadata
          ⟨0, [("u1", 7), ("u2", 8)], [("u1", ⟨"https://a.test", 5⟩), ("u2", ⟨"https://b.test", 6⟩)]⟩
          "u1" 0 ⟨"https://c.test", 9⟩ 11 createRes = Except.ok s2) ∧
      s2.browser_instance =
        (⟨0, [("u1", 7), ("u2", 8)], [("u1", ⟨"https://a.test", 5⟩), ("u2", ⟨"https://b.test", 6⟩)]⟩ : BrowserState).browser_instance ∧
      s2.user_contexts =
        (⟨0, [("u1", 7), ("u2", 8)], [("u1", ⟨"https://a.test", 5⟩), ("u2", ⟨"https://b.test", 6⟩)]⟩ : BrowserState).user_contexts ∧
      (∀ u, ¬ u = "u1" →
        Dict.find? s2.user_metadata u =
          Dict.find?
            (⟨0, [("u1", 7), ("u2", 8)], [("u1", ⟨"https://a.test", 5⟩), ("u2", ⟨"https://b.test", 6⟩)]⟩ : BrowserState).user_metadata u) ∧
      Dict.find? s2.user_metadata "u1" = some ⟨"https://c.test", 11⟩ ∧
      (Dict.find?
          (⟨0, [("u1", 7), ("u2", 8)], [("u1", ⟨"https://a.test", 5⟩), ("u2", ⟨"https://b.test", 6⟩)]⟩ : BrowserState).user_metadata "u1" =
          some ⟨"https://c.test", 11⟩ →
        s2 = ⟨0, [("u1", 7), ("u2", 8)], [("u1", ⟨"https://a.test", 5⟩), ("u2", ⟨"https://b.test", 6⟩)]⟩) :=
  add_existing_user_refreshes_metadata_only _ "u1" 0 ⟨"https://c.test", 9⟩ 11 7 rfl

/-- C6: for a brand-new user whose context creation succeeds,
`add_or_refresh` populates both maps and stamps the stored metadata with the
operation's current time, ignoring the timestamp carried by the argument. -/
theorem add_new_user_populates_both_maps (s : BrowserState) (user_id : String)
    (cfg : BrowserContextConfig) (url : String) (ts now : Int) (ctx : BrowserContext)
    (h : Dict.find? s.user_contexts user_id = none) :
    add_user_context_and_metadata s user_id cfg ⟨url, ts⟩ now (Except.ok ctx) =
      Except.ok { s with
        user_contexts := Dict.insert s.user_contexts user_id ctx,
        user_metadata := Dict.insert s.user_metadata user_id ⟨url, now⟩ } ∧
    Dict.find? (Dict.insert s.user_contexts user_id ctx) user_id = some ctx ∧
    Dict.find? (Dict.insert s.user_metadata user_id ⟨url, now⟩) user_id =
      some ⟨url, now⟩ := by
  have hk : Dict.hasKey s.user_contexts user_id = false := by simp [Dict.hasKey, h]
  refine ⟨?_, ?_, ?_⟩
  · simp [add_user_context_and_metadata, hk]
  · simp [Dict.find?_insert]
  · simp [Dict.find?_insert]

/-- Witness for C6: the passed-in timestamp 99 is replaced by now = 11. -/
theorem add_new_user_populates_both_maps_witness :
    add_user_context_and_metadata ⟨0, [], []⟩ "u1" 0 ⟨"https://a.test", 99⟩ 11
        (Except.ok 7) =
      Except.ok { (⟨0, [], []⟩ : BrowserState) with
        user_contexts := Dict.insert ([] : Dict BrowserContext) "u1" 7,
        user_metadata := Dict.insert ([] : Dict UserMetadata) "u1" ⟨"https://a.test", 11⟩ } ∧
    Dict.find? (Dict.insert ([] : Dict BrowserContext) "u1" 7) "u1" = some 7 ∧
    Dict.find? (Dict.insert ([] : Dict UserMetadata) "u1" ⟨"https://a.test", 11⟩) "u1" =
      some ⟨"https://a.test", 11⟩ :=
  add_new_user_populates_both_maps ⟨0, [], []⟩ "u1" 0 "https://a.test" 99 11 7 rfl

/-- C10: `shutdown` never modifies the registry snapshot: the kept snapshot is
the input, a successful close returns the status string, a failed close
returns a `SHUTDOWN_BROWSER` error, and `get_context` on the kept snapshot
still succeeds for every registered user. -/
theorem shutdown_preserves_registry (s : BrowserState)
    (closeRes : Except String Unit) :
    browserStep s (BrowserOp.shutdownBrowser closeRes) = s ∧
    (∀ u, closeRes = Except.ok u →
      shutdown_browser s closeRes = Except.ok "Browser closed successfully") ∧
    (∀ e, shutdown_browser s closeRes = Except.error e →
      e.operation_name = BrowserOperation.SHUTDOWN_BROWSER) ∧
    (∀ u ctx, get_user_context s u = Except.ok ctx →
      get_user_context (browserStep s (BrowserOp.shutdownBrowser closeRes)) u =
        Except.ok ctx) := by
  refine ⟨rfl, ?_, ?_, fun u ctx hg => hg⟩
  · intro u hu
    subst hu
    rfl
  · intro e he
    cases closeRes with
    | ok u => simp [shutdown_browser] at he
    | error err =>
      simp only [shutdown_browser, Except.error.injEq] at he
      subst he
      rfl

/-- Witness for C10 on a concrete registry with a failing close. -/
theorem shutdown_preserves_registry_witness :
    get_user_context (browserStep ⟨0, [("u1", 3)], [("u1", ⟨"https://a.test", 1⟩)]⟩
        (BrowserOp.shutdownBrowser (Except.error "crash"))) "u1" = Except.ok 3 :=
  (shutdown_preserves_registry ⟨0, [("u1", 3)], [("u1", ⟨"https://a.test", 1⟩)]⟩
    (Except.error "crash")).2.2.2 "u1" 3 rfl

/-- The browser error kinds that some operation can actually return. -/
def browserErrKindReachable : BrowserOperation → Bool
  | BrowserOperation.GET_USER_CONTEXT_NOT_FOUND => true
  | BrowserOperation.GET_USER_METADATA_NOT_FOUND => true
  | BrowserOperation.REMOVE_USER_CONTEXT_NOT_FOUND => true
  | BrowserOperation.UPDATE_USER_METADATA_NOT_FOUND => true
  | BrowserOperation.ADD_USER_CONTEXT_FAILED => true
  | BrowserOperation.REMOVE_USER_CONTEXT_FAILED => true
  | BrowserOperation.SHUTDOWN_BROWSER => true
  | _ => false

/-- Whether a browser operation result is a success or an error whose kind is
in the reachable set. -/
def browserResultKindOk {α : Type} : Except BrowserError α → Bool
  | Except.ok _ => true
  | Except.error e => browserErrKindReachable e.operation_name

/-- C9: no browser registry operation ever returns an error of kind
`CREATE_BROWSER`, `CREATE_BROWSER_CONTEXT`, `CLOSE_BROWSER_CONTEXT`,
`ADD_USER_CONTEXT_EXISTS` or `CLOSE_MAIN_BROWSER`: every returned error kind
lies in the seven-kind reachable set. -/
theorem browser_error_kinds_reachable (s : BrowserState) (user_id : String)
    (cfg : BrowserContextConfig) (meta new_meta : UserMetadata) (now : Int)
    (createRes : Except String BrowserContext)
    (closeRes shCloseRes : Except String Unit) :
    browserResultKindOk
      (add_user_context_and_metadata s user_id cfg meta now createRes) = true ∧
    browserResultKindOk (get_user_context s user_id) = true ∧
    browserResultKindOk (get_user_metadata s user_id) = true ∧
    browserResultKindOk (remove_user_context s user_id closeRes) = true ∧
    browserResultKindOk (update_user_metadata s user_id new_meta) = true ∧
    browserResultKindOk (shutdown_browser s shCloseRes) = true := by
  refine ⟨?_, ?_, ?_, ?_, ?_, ?_⟩
  · unfold add_user_context_and_metadata
    dsimp only
    repeat' split
    all_goals rfl
  · unfold get_user_context
    repeat' split
    all_goals rfl
  · unfold get_user_metadata
    repeat' split
    all_goals rfl
  · unfold remove_user_context get_user_context
    repeat' split
    all_goals rfl
  · unfold update_user_metadata
    repeat' split
    all_goals rfl
  · unfold shutdown_browser
    repeat' split
    all_goals rfl

/-- C4: when the stored record for `user_id` matches the incoming address and
metadata (timestamps aside), the result of `add_or_refresh` is the same for
every readiness-check behavior, and it is a success: the unchanged snapshot if
the stored timestamp already equals now, otherwise a snapshot in which only
the record's timestamp is refreshed. -/
theorem add_project_noop_skips_health_check (s : CodebaseState)
    (user_id addr : String) (meta : ProjectMetadata) (now : Int) (p : UserProject)
    (h : Dict.find? s.user_projects user_id = some p)
    (ha : p.project_address = addr) (hm : p.metadata = meta) :
    (∀ h1 h2, add_user_project s user_id addr meta now h1 =
        add_user_project s user_id addr meta now h2) ∧
    (p.last_active_timestamp = now →
      ∀ hres, add_user_project s user_id addr meta now hres = Except.ok s) ∧
    (¬ p.last_active_timestamp = now →
      ∀ hres, add_user_project s user_id addr meta now hres =
        Except.ok ⟨Dict.insert s.user_projects user_id ⟨p.project_address, p.metadata, now⟩⟩) := by
  by_cases ht : p.last_active_timestamp = now
  · refine ⟨?_, fun _ hres => ?_, fun hne _ => absurd ht hne⟩
    · intro h1 h2
      simp [add_user_project, h, ha, hm, ht]
    · simp [add_user_project, h, ha, hm, ht]
  · refine ⟨?_, fun hts _ => absurd hts ht, fun _ hres => ?_⟩
    · intro h1 h2
      simp [add_user_project, h, ha, hm, ht]
    · simp [add_user_project, h, ha, hm, ht]

/-- Witness for C4: a stale stored record gets only its timestamp refreshed,
identically for a passing, failing and faulting readiness check. -/
theorem add_project_noop_skips_health_check_witness :
    (∀ h1 h2, add_user_project ⟨[("u1", ⟨"http://p.test", none, 5⟩)]⟩ "u1"
        "http://p.test" none 11 h1 =
      add_user_project ⟨[("u1", ⟨"http://p.test", none, 5⟩)]⟩ "u1"
        "http://p.test" none 11 h2) ∧
    ((5 : Int) = 11 →
      ∀ hres, add_user_project ⟨[("u1", ⟨"http://p.test", none, 5⟩)]⟩ "u1"
        "http://p.test" none 11 hres =
        Except.ok ⟨[("u1", ⟨"http://p.test", none, 5⟩)]⟩) ∧
    (¬ (5 : Int) = 11 →
      ∀ hres, add_user_project ⟨[("u1", ⟨"http://p.test", none, 5⟩)]⟩ "u1"
        "http://p.test" none 11 hres =
        Except.ok ⟨Dict.insert [("u1", ⟨"http://p.test", none, 5⟩)] "u1"
          ⟨"http://p.test", none, 11⟩⟩) :=
  add_project_noop_skips_health_check ⟨[("u1", ⟨"http://p.test", none, 5⟩)]⟩
    "u1" "http://p.test" none 11 ⟨"http://p.test", none, 5⟩ rfl rfl rfl

/-- C3: when the no-op short-circuit does not apply, a not-ready readiness
check yields an `ADD_USER_PROJECT_HEALTH_CHECK_FAILED` error carrying the
address and user id with the registry unchanged, and a faulting readiness
check yields an `ADD_USER_PROJECT_HTTP_ERROR` error wrapping the fault with
the registry unchanged. -/
theorem add_project_gated_on_health (s : CodebaseState) (user_id addr : String)
    (meta : ProjectMetadata) (now : Int)
    (h : ∀ p, Dict.find? s.user_projects user_id = some p →
      ¬ (p.project_address = addr ∧ p.metadata = meta)) :
    (add_user_project s user_id addr meta now (Except.ok false) =
      Except.error (_make_codebase_error
        ("Health check failed for project: " ++ addr)
        CodebaseOperation.ADD_USER_PROJECT_HEALTH_CHECK_FAILED
        (some user_id) (some addr)
        (some "Health endpoint did not return 200 or was unreachable."))) ∧
    codebaseStep s (CodebaseOp.addProj user_id addr meta now (Except.ok false)) = s ∧
    (∀ f, add_user_project s user_id addr meta now (Except.error f) =
      Except.error (_make_codebase_error
        ("HTTP error during health check for project: " ++ addr)
        CodebaseOperation.ADD_USER_PROJECT_HTTP_ERROR
        (some user_id) (some addr) (some f)) ∧
      codebaseStep s (CodebaseOp.addProj user_id addr meta now (Except.error f)) = s) := by
  cases hp : Dict.find? s.user_projects user_id with
  | some p =>
    have hne := h p hp
    refine ⟨?_, ?_, ?_⟩
    · simp [add_user_project, hp, hne]
    · simp [codebaseStep, add_user_project, hp, hne]
    · intro f
      constructor
      · simp [add_user_project, hp, hne]
      · simp [codebaseStep, add_user_project, hp, hne]
  | none =>
    refine ⟨?_, ?_, ?_⟩
    · simp [add_user_project, hp]
    · simp [codebaseStep, add_user_project, hp]
    · intro f
      constructor
      · simp [add_user_project, hp]
      · simp [codebaseStep, add_user_project, hp]

/-- Witness for C3 on an empty registry: after a failed health check the
brand-new user has no entry. -/
theorem add_project_gated_on_health_witness :
    (add_user_project ⟨[]⟩ "u1" "http://bad.test" none 11 (Except.ok false) =
      Except.error (_make_codebase_error
        ("Health check failed for project: " ++ "http://bad.test")
        CodebaseOperation.ADD_USER_PROJECT_HEALTH_CHECK_FAILED
        (some "u1") (some "http://bad.test")
        (some "Health endpoint did not return 200 or was unreachable."))) ∧
    codebaseStep ⟨[]⟩ (CodebaseOp.addProj "u1" "http://bad.test" none 11
      (Except.ok false)) = ⟨[]⟩ ∧
    (∀ f, add_user_project ⟨[]⟩ "u1" "http://bad.test" none 11 (Except.error f) =
      Except.error (_make_codebase_error
        ("HTTP error during health check for project: " ++ "http://bad.test")
        CodebaseOperation.ADD_USER_PROJECT_HTTP_ERROR
        (some "u1") (some "http://bad.test") (some f)) ∧
      codebaseStep ⟨[]⟩ (CodebaseOp.addProj "u1" "http://bad.test" none 11
        (Except.error f)) = ⟨[]⟩) :=
  add_project_gated_on_health ⟨[]⟩ "u1" "http://bad.test" none 11
    (fun _ hp => Option.noConfusion hp)

/-- The key-set invariant: `contexts` and `metadata` have identical key sets. -/
def keySetInv (s : BrowserState) : Prop :=
  ∀ k, Dict.hasKey s.user_contexts k = Dict.hasKey s.user_metadata k

theorem keySetInv_insert_meta (s : BrowserState) (uid : String) (v : UserMetadata)
    (h : keySetInv s) (hk : Dict.hasKey s.user_contexts uid = true) :
    keySetInv ⟨s.browser_instance, s.user_contexts,
      Dict.insert s.user_metadata uid v⟩ := by
  intro k
  show Dict.hasKey s.user_contexts k = Dict.hasKey (Dict.insert s.user_metadata uid v) k
  rw [Dict.hasKey_insert]
  by_cases hku : uid = k
  · subst hku
    simp [hk]
  · simp [hku, h k]

theorem keySetInv_insert_both (s : BrowserState) (uid : String)
    (c : BrowserContext) (v : UserMetadata) (h : keySetInv s) :
    keySetInv ⟨s.browser_instance, Dict.insert s.user_contexts uid c,
      Dict.insert s.user_metadata uid v⟩ := by
  intro k
  show Dict.hasKey (Dict.insert s.user_contexts uid c) k =
    Dict.hasKey (Dict.insert s.user_metadata uid v) k
  rw [Dict.hasKey_insert, Dict.hasKey_insert, h k]

theorem keySetInv_erase_both (s : BrowserState) (uid : String) (h : keySetInv s) :
    keySetInv ⟨s.browser_instance, Dict.erase s.user_contexts uid,
      Dict.erase s.user_metadata uid⟩ := by
  intro k
  show Dict.hasKey (Dict.erase s.user_contexts uid) k =
    Dict.hasKey (Dict.erase s.user_metadata uid) k
  rw [Dict.hasKey_erase, Dict.hasKey_erase, h k]

theorem keySetInv_browserStep (s : BrowserState) (op : BrowserOp)
    (h : keySetInv s) : keySetInv (browserStep s op) := by
  cases op with
  | addCtx uid cfg meta now cres =>
    by_cases hk : Dict.hasKey s.user_contexts uid
    · cases hm : Dict.find? s.user_metadata uid with
      | some em =>
        by_cases he : em = (⟨meta.website_url, now⟩ : UserMetadata)
        · simpa [browserStep, add_user_context_and_metadata, hk, hm, he] using h
        · have h2 := keySetInv_insert_meta s uid ⟨meta.website_url, now⟩ h hk
          simpa [browserStep, add_user_context_and_metadata, hk, hm, he] using h2
      | none =>
        have h2 := keySetInv_insert_meta s uid ⟨meta.website_url, now⟩ h hk
        simpa [browserStep, add_user_context_and_metadata, hk, hm] using h2
    · cases cres with
      | ok ctx =>
        have h2 := keySetInv_insert_both s uid ctx ⟨meta.website_url, now⟩ h
        simpa [browserStep, add_user_context_and_metadata, hk] using h2
      | error err =>
        simpa [browserStep, add_user_context_and_metadata, hk] using h
  | removeCtx uid clres =>
    cases hc : Dict.find? s.user_contexts uid with
    | some c =>
      cases clres with
      | ok u =>
        have h2 := keySetInv_erase_both s uid h
        simpa [browserStep, remove_user_context, get_user_context, hc] using h2
      | error err =>
        simpa [browserStep, remove_user_context, get_user_context, hc] using h
    | none =>
      simpa [browserStep, remove_user_context, get_user_context, hc] using h
  | updateMeta uid meta =>
    by_cases hk : Dict.hasKey s.user_metadata uid
    · have hkc : Dict.hasKey s.user_contexts uid = true := by
        rw [h uid]
        exact hk
      have h2 := keySetInv_insert_meta s uid meta h hkc
      simpa [browserStep, update_user_metadata, hk] using h2
    · simpa [browserStep, update_user_metadata, hk] using h
  | shutdownBrowser clres => exact h

theorem keySetInv_browserRun (ops : List BrowserOp) :
    ∀ s, keySetInv s → keySetInv (browserRun s ops) := by
  induction ops with
  | nil => exact fun s h => h
  | cons op rest ih => exact fun s h => ih _ (keySetInv_browserStep s op h)

/-- C1: every registry snapshot reachable from `create_registry`'s empty maps
by any sequence of transitions (keeping the new snapshot on success, the old
one on failure) satisfies the key-set invariant: the key set of the contexts
map equals the key set of the metadata map. -/
theorem browser_registry_keyset_invariant (browser_config : BrowserConfig)
    (ops : List BrowserOp) :
    keySetInv (browserRun (create_browser_state browser_config) ops) :=
  keySetInv_browserRun ops (create_browser_state browser_config) (fun _ => rfl)

/-- C7 counterexample: status 201 is 2xx, yet `_check_project_health` produces
a successful `false` rather than `true` — refuting both "true exactly when
2xx" and "every non-true outcome surfaces as a failure". -/
theorem health_check_2xx_counterexample :
    ((200 : Nat) ≤ 201 ∧ (201 : Nat) < 300) ∧
    _check_project_health (Except.ok 201) = Except.ok false ∧
    ¬ _check_project_health (Except.ok 201) = Except.ok true := by
  refine ⟨by decide, ?_, ?_⟩
  · simp [_check_project_health]
  · simp [_check_project_health]

/-- C7 (amended): `_check_project_health` reports `true` exactly when the
status is 200; a 2xx status other than 200 yields a successful `false`; every
non-2xx status and every transport fault surfaces as a failure. -/
theorem health_check_classification (r : Except String Nat) :
    (_check_project_health r = Except.ok true ↔ r = Except.ok 200) ∧
    (∀ n, r = Except.ok n → 200 ≤ n → n < 300 → ¬ n = 200 →
      _check_project_health r = Except.ok false) ∧
    (∀ n, r = Except.ok n → ¬ (200 ≤ n ∧ n < 300) →
      _check_project_health r =
        Except.error ("HTTPStatusError for status " ++ toString n)) ∧
    (∀ e, r = Except.error e → _check_project_health r = Except.error e) := by
  cases r with
  | error e =>
    refine ⟨?_, ?_, ?_, ?_⟩
    · simp [_check_project_health]
    · intro n hn
      exact absurd hn (by simp)
    · intro n hn
      exact absurd hn (by simp)
    · intro f hf
      rw [hf]
      rfl
  | ok m =>
    by_cases h2 : 200 ≤ m ∧ m < 300
    · refine ⟨?_, ?_, ?_, ?_⟩
      · constructor
        · intro hok
          simp [_check_project_health, h2] at hok
          simp [hok]
        · intro hok
          have hm : m = 200 := by simpa using hok
          subst hm
          simp [_check_project_health, h2]
      · intro n hn h200 h300 hne
        have hm : m = n := by simpa using hn
        subst hm
        simp [_check_project_health, h2, hne]
      · intro n hn hnot
        have hm : m = n := by simpa using hn
        subst hm
        exact absurd h2 hnot
      · intro f hf
        exact absurd hf (by simp)
    · refine ⟨?_, ?_, ?_, ?_⟩
      · constructor
        · intro hok
          simp [_check_project_health, h2] at hok
        · intro hok
          have hm : m = 200 := by simpa using hok
          subst hm
          exact absurd (by decide) h2
      · intro n hn h200 h300 hne
        have hm : m = n := by simpa using hn
        subst hm
        exact absurd ⟨h200, h300⟩ h2
      · intro n hn hnot
        have hm : m = n := by simpa using hn
        subst hm
        simp [_check_project_health, h2]
      · intro f hf
        exact absurd hf (by simp)

/-- Witness for C7 (amended) at status 404 and at status 200. -/
theorem health_check_classification_witness :
    _check_project_health (Except.ok 404) =
      Except.error ("HTTPStatusError for status " ++ toString 404) ∧
    _check_project_health (Except.ok 200) = Except.ok true :=
  ⟨(health_check_classification (Except.ok 404)).2.2.1 404 rfl (by decide),
   (health_check_classification (Except.ok 200)).1.mpr rfl⟩

/-- C8: in one reaper cycle with cutoff `now - threshold`, a user is selected
for removal exactly when the user's record's `last_active_timestamp` is
strictly before the cutoff, for both registries; in particular, on concrete
registries with the code's threshold of 3600, the user stamped
`now - 2 * threshold` is removed by the cycle and the user stamped
`now - threshold / 2` is retained. -/
theorem reaper_threshold_selection (s : BrowserState) (cs : CodebaseState)
    (now threshold : Int) (u : String)
    (hb : (Dict.keysOf s.user_metadata).Nodup)
    (hc : (Dict.keysOf cs.user_projects).Nodup) :
    (u ∈ inactiveBrowserUsers s (now - threshold) ↔
      ∃ md, Dict.find? s.user_metadata u = some md ∧
        md.last_active_timestamp < now - threshold) ∧
    (u ∈ inactiveCodebaseUsers cs (now - threshold) ↔
      ∃ p, Dict.find? cs.user_projects u = some p ∧
        p.last_active_timestamp < now - threshold) ∧
    (browserReaperCycle
        ⟨0, [("stale", 1), ("fresh", 2)],
          [("stale", ⟨"https://a.test", 10000 - 2 * INACTIVITY_THRESHOLD_SECONDS⟩),
           ("fresh", ⟨"https://b.test", 10000 - INACTIVITY_THRESHOLD_SECONDS / 2⟩)]⟩
        10000 INACTIVITY_THRESHOLD_SECONDS (fun _ => Except.ok ())).user_metadata =
      [("fresh", ⟨"https://b.test", 10000 - INACTIVITY_THRESHOLD_SECONDS / 2⟩)] ∧
    (codebaseReaperCycle
        ⟨[("stale", ⟨"http://p.test", none, 10000 - 2 * INACTIVITY_THRESHOLD_SECONDS⟩),
          ("fresh", ⟨"http://q.test", none, 10000 - INACTIVITY_THRESHOLD_SECONDS / 2⟩)]⟩
        10000 INACTIVITY_THRESHOLD_SECONDS).user_projects =
      [("fresh", ⟨"http://q.test", none, 10000 - INACTIVITY_THRESHOLD_SECONDS / 2⟩)] := by
  refine ⟨?_, ?_, by decide, by decide⟩
  · rw [inactiveBrowserUsers, Dict.mem_filterKeys s.user_metadata _ u hb]
    simp
  · rw [inactiveCodebaseUsers, Dict.mem_filterKeys cs.user_projects _ u hc]
    simp

/-- Witness for C8: the selection characterization applied to a concrete
one-user browser registry and an empty codebase registry. -/
theorem reaper_threshold_selection_witness :
    "stale" ∈ inactiveBrowserUsers
        ⟨0, [("stale", 1)], [("stale", ⟨"https://a.test", 100⟩)]⟩ (500 - 200) ↔
      ∃ md, Dict.find? [("stale", (⟨"https://a.test", 100⟩ : UserMetadata))] "stale" =
          some md ∧ md.last_active_timestamp < 500 - 200 :=
  (reaper_threshold_selection
    ⟨0, [("stale", 1)], [("stale", ⟨"https://a.test", 100⟩)]⟩ ⟨[]⟩ 500 200 "stale"
    (by decide) (by decide)).1
